import Mathlib

/-!
Verification development for the lidar inventory resolution and extraction
pipeline (`lapis.py`).  The Python source is shallowly embedded: pure
control flow is translated directly, Python exceptions become an explicit
`PyExc` error type threaded through `Except`, and calls into external
libraries (geopandas reprojection, `pdal`, `pyproj`, HTTP) are oracled as
explicit function-valued parameters so that theorems quantify over every
possible behaviour of the external world.
-/

/-- The Python exceptions that the embedded code can raise or catch.
`runtimeError` stands for a bare `Exception(msg)` raise. -/
inductive PyExc
  | keyError
  | typeError
  | valueError
  | indexError
  | jsonDecodeError
  | calledProcessError
  | crsError
  | attributeError
  | runtimeError (msg : String)
  deriving DecidableEq, Repr

/-- Parsed JSON values as produced by `json.loads`. -/
inductive Json
  | null
  | bool (b : Bool)
  | num (n : Int)
  | str (s : String)
  | arr (elems : List Json)
  | obj (fields : List (String × Json))

/-- Python subscript `j[k]` with a string key on a parsed JSON value:
a dict lookup raises KeyError when the key is missing; subscripting
any non-dict value (list, string, number, bool, None) with a string
key raises TypeError. -/
def Json.subscript (j : Json) (k : String) : Except PyExc Json :=
  match j with
  | .obj fields =>
    match fields.lookup k with
    | some v => Except.ok v
    | none => Except.error PyExc.keyError
  | _ => Except.error PyExc.typeError

/-- Python `d.get(k)`: only dicts have a `.get` method; calling it on any
other value raises AttributeError.  On a dict it returns the value or
`None` (here `none`) without raising. -/
def Json.dictGet (j : Json) (k : String) : Except PyExc (Option Json) :=
  match j with
  | .obj fields => Except.ok (fields.lookup k)
  | _ => Except.error PyExc.attributeError

/-- Python iteration `for l in v`: lists yield their elements, strings
yield one-character strings, dicts yield their keys; numbers, booleans
and None are not iterable (TypeError). -/
def Json.iterate (j : Json) : Except PyExc (List Json) :=
  match j with
  | .arr es => Except.ok es
  | .str s => Except.ok (s.toList.map (fun c => Json.str c.toString))
  | .obj fields => Except.ok (fields.map (fun kv => Json.str kv.1))
  | _ => Except.error PyExc.typeError

/-- Python truthiness of a parsed JSON value (`if wkt_string:`). -/
def Json.truthy : Json → Bool
  | .null => false
  | .bool b => b
  | .num n => n != 0
  | .str s => s != ""
  | .arr es => !es.isEmpty
  | .obj fields => !fields.isEmpty

/-- Python `v == "s"` for a parsed JSON value: true exactly when `v` is the
string `s`; comparisons across types are `False`, never an error. -/
def pyEqStr (j : Json) (s : String) : Bool :=
  match j with
  | .str t => t == s
  | _ => false

/-- Python `v == "s"` where `v` may be `None` (result of `dict.get`). -/
def pyOptEqStr (o : Option Json) (s : String) : Bool :=
  match o with
  | some j => pyEqStr j s
  | none => false

/-! ## Endpoint reconciliation (`ProcessLidarCollections._get_ept_url`) -/

/-- `list(set([a, b]))`: the distinct elements of the two-element list.
Python set iteration order is unspecified; a fixed order is chosen here,
which is immaterial because the caller only inspects the length and, for
a singleton, the sole element. -/
def distinctPair (a b : Option String) : List (Option String) :=
  if a = b then [a] else [a, b]

/-- `ProcessLidarCollections._get_ept_url`: reconcile the endpoint from the
`ept_usiaei` column and the `EPT` column (renamed `ept_noaa` afterwards).
`none` stands for a null cell (Python `None` or `np.nan`, both of which
satisfy `pd.isnull`). -/
def get_ept_url (ept_usiaei EPT : Option String) : Option String :=
  let url := distinctPair ept_usiaei EPT
  let url2 := url.filter (fun i => i.isSome)
  if url2.length = 1 then url2.headD none else none

/-- Modelled from the spec for refinement comparison: the set of distinct
non-null values among `ept_usiaei` and `ept_noaa`; `ept` is its unique
element when the set is a singleton, otherwise null. -/
def eptSpec (ept_usiaei ept_noaa : Option String) : Option String :=
  let distinct : List String :=
    match ept_usiaei, ept_noaa with
    | some x, some y => if x = y then [x] else [x, y]
    | some x, none => [x]
    | none, some y => [y]
    | none, none => []
  match distinct with
  | [v] => some v
  | _ => none

/-- Claim C1: endpoint reconciliation returns the unique distinct non-null
value among the two sources when exactly one exists and null otherwise;
in particular the five enumerated cases of the spec hold. -/
theorem get_ept_url_matches_spec :
    (∀ a b : Option String, get_ept_url a b = eptSpec a b) ∧
    (∀ A : String, get_ept_url (some A) none = some A) ∧
    (∀ B : String, get_ept_url none (some B) = some B) ∧
    (∀ A : String, get_ept_url (some A) (some A) = some A) ∧
    (∀ A B : String, A ≠ B → get_ept_url (some A) (some B) = none) ∧
    get_ept_url none none = none := by
  refine ⟨?_, ?_, ?_, ?_, ?_, ?_⟩
  · intro a b
    rcases a with _ | x <;> rcases b with _ | y
    · rfl
    · rfl
    · rfl
    · by_cases hxy : x = y
      · subst hxy
        simp [get_ept_url, eptSpec, distinctPair]
      · simp [get_ept_url, eptSpec, distinctPair, hxy]
  · intro A
    rfl
  · intro B
    rfl
  · intro A
    simp [get_ept_url, eptSpec, distinctPair]
  · intro A B h
    simp [get_ept_url, eptSpec, distinctPair, h]
  · rfl

/-- Witness for C1: the conflicting-sources case at concrete inputs. -/
theorem get_ept_url_matches_spec_witness :
    get_ept_url (some "A") (some "B") = none :=
  get_ept_url_matches_spec.2.2.2.2.1 "A" "B" (by decide)

/-! ## Links parsing (`_parse_ept_from_usiaei`, `_parse_noaa_lidar_id`) -/

/-- The value of a `Links` cell as the parsers see it: Python `None`
(checked before any parsing), a non-string non-None value such as
`np.nan` (on which `json.loads` raises TypeError), a string on which
`json.loads` raises JSONDecodeError, or a string parsing to `j`. -/
inductive LinksCell
  | pyNone
  | nonString
  | badJson
  | goodJson (j : Json)

/-- The list comprehension
`[l['link'] for l in links['links'] if l.get('linktype') == 'EPT Link']`:
per element, the filter runs first (`.get` raises AttributeError on a
non-dict element) and `l['link']` is subscripted only for elements that
pass the filter (KeyError when the key is missing). -/
def eptLinkValues : List Json → Except PyExc (List Json)
  | [] => Except.ok []
  | l :: rest => do
    let lt ← l.dictGet "linktype"
    if pyOptEqStr lt "EPT Link" then
      let v ← l.subscript "link"
      let vs ← eptLinkValues rest
      pure (v :: vs)
    else
      eptLinkValues rest

/-- The list comprehension
`[l['link'] for l in links['links'] if l['label'] == "NOAA Digital Coast"
and l['linktype'] == "Data Access"]`: both filter subscripts can raise
KeyError (missing key) or TypeError (non-dict element); `and`
short-circuits, so `l['linktype']` is only read when the label matched. -/
def noaaLinkValues : List Json → Except PyExc (List Json)
  | [] => Except.ok []
  | l :: rest => do
    let lab ← l.subscript "label"
    let keep ←
      if pyEqStr lab "NOAA Digital Coast" then do
        let lt ← l.subscript "linktype"
        pure (pyEqStr lt "Data Access")
      else
        pure false
    if keep then
      let v ← l.subscript "link"
      let vs ← noaaLinkValues rest
      pure (v :: vs)
    else
      noaaLinkValues rest

/-- `re.search(r'ID=(\d+)', s)` followed by `.group(1)`: scan left to
right for the first position where the literal `ID=` is followed by at
least one digit, and return the maximal digit run there. -/
def findIdMatch : List Char → Option String
  | [] => none
  | c :: rest =>
    if c = 'I' then
      match rest with
      | 'D' :: '=' :: tail =>
        let ds := tail.takeWhile Char.isDigit
        if ds.isEmpty then findIdMatch rest else some ds.asString
      | _ => findIdMatch rest
    else
      findIdMatch rest

/-- The `except (json.JSONDecodeError, TypeError)` clause shared by the two
parsers: those two exception types are caught and mapped to `np.nan`
(a null cell); every other exception propagates. -/
def catchJsonTypeErr (body : Except PyExc (Option Json)) : Except PyExc (Option Json) :=
  match body with
  | Except.ok r => Except.ok r
  | Except.error PyExc.jsonDecodeError => Except.ok none
  | Except.error PyExc.typeError => Except.ok none
  | Except.error e => Except.error e

/-- The `try` body of `_parse_ept_from_usiaei` after a successful
`json.loads`: read `links['links']`, iterate it, build the comprehension,
and return `values[0]` when non-empty, `np.nan` (null) otherwise. -/
def eptBody (j : Json) : Except PyExc (Option Json) := do
  let linksVal ← j.subscript "links"
  let elems ← linksVal.iterate
  let values ← eptLinkValues elems
  match values with
  | v :: _ => pure (some v)
  | [] => pure none

/-- `ProcessLidarCollections._parse_ept_from_usiaei`.  The result value
`none` stands for a null cell (the function returns `None` for a `None`
input and `np.nan` on handled failures or an empty match list; both are
null under `pd.isnull`).  The `try` block catches only
`json.JSONDecodeError` and `TypeError`; every other exception raised in
the body (KeyError from a missing `'links'` or `'link'` key,
AttributeError from `.get` on a non-dict element) propagates. -/
def parse_ept_from_usiaei (x : LinksCell) : Except PyExc (Option Json) :=
  match x with
  | .pyNone => Except.ok none
  | .nonString => Except.ok none
  | .badJson => Except.ok none
  | .goodJson j => catchJsonTypeErr (eptBody j)

/-- The `try` body of `_parse_noaa_lidar_id` after a successful
`json.loads`: build the comprehension, then run
`re.search(r'ID=(\d+)', values[0])` on a non-empty result and return
`match.group(1)`.  The `else: np.nan` branch of the source discards its
value and the function falls through to an implicit `return None`; a
failed regex match falls through as well; both are null cells.
`re.search` on a non-string first value raises TypeError. -/
def noaaBody (j : Json) : Except PyExc (Option Json) := do
  let linksVal ← j.subscript "links"
  let elems ← linksVal.iterate
  let values ← noaaLinkValues elems
  match values with
  | v :: _ =>
    match v with
    | .str s =>
      match findIdMatch s.toList with
      | some ds => pure (some (Json.str ds))
      | none => pure none
    | _ => Except.error PyExc.typeError
  | [] => pure none

/-- `ProcessLidarCollections._parse_noaa_lidar_id`.  Uncaught exceptions
(KeyError from missing `'label'`, `'linktype'`, `'link'` or `'links'`
keys) propagate; TypeError and JSONDecodeError are caught as null. -/
def parse_noaa_lidar_id (x : LinksCell) : Except PyExc (Option Json) :=
  match x with
  | .pyNone => Except.ok none
  | .nonString => Except.ok none
  | .badJson => Except.ok none
  | .goodJson j => catchJsonTypeErr (noaaBody j)

/-! ### Error classification lemmas for the link parsers -/

theorem except_bind_error {α β : Type} (e : PyExc) (f : α → Except PyExc β) :
    ((Except.error e : Except PyExc α) >>= f) = Except.error e := rfl

theorem except_bind_ok {α β : Type} (a : α) (f : α → Except PyExc β) :
    ((Except.ok a : Except PyExc α) >>= f) = f a := rfl

theorem subscript_error_cases {j : Json} {k : String} {e : PyExc}
    (h : j.subscript k = Except.error e) :
    e = PyExc.keyError ∨ e = PyExc.typeError := by
  cases j with
  | obj fields =>
    simp only [Json.subscript] at h
    cases hl : fields.lookup k with
    | some v => rw [hl] at h; simp at h
    | none => rw [hl] at h; simp only [Except.error.injEq] at h; exact Or.inl h.symm
  | null => simp only [Json.subscript, Except.error.injEq] at h; exact Or.inr h.symm
  | bool b => simp only [Json.subscript, Except.error.injEq] at h; exact Or.inr h.symm
  | num n => simp only [Json.subscript, Except.error.injEq] at h; exact Or.inr h.symm
  | str s => simp only [Json.subscript, Except.error.injEq] at h; exact Or.inr h.symm
  | arr es => simp only [Json.subscript, Except.error.injEq] at h; exact Or.inr h.symm

theorem iterate_error_cases {j : Json} {e : PyExc}
    (h : j.iterate = Except.error e) : e = PyExc.typeError := by
  cases j <;> simp_all [Json.iterate]

theorem dictGet_error_cases {j : Json} {k : String} {e : PyExc}
    (h : j.dictGet k = Except.error e) : e = PyExc.attributeError := by
  cases j <;> simp_all [Json.dictGet]

theorem except_pure_bind {α β : Type} (a : α) (f : α → Except PyExc β) :
    ((pure a : Except PyExc α) >>= f) = f a := rfl

theorem eptLinkValues_error_cases {ls : List Json} {e : PyExc}
    (h : eptLinkValues ls = Except.error e) :
    e = PyExc.keyError ∨ e = PyExc.typeError ∨ e = PyExc.attributeError := by
  induction ls with
  | nil => simp [eptLinkValues] at h
  | cons l rest ih =>
    simp only [eptLinkValues] at h
    cases hlt : l.dictGet "linktype" with
    | error e2 =>
      rw [hlt, except_bind_error] at h
      injection h with h2
      subst h2
      exact Or.inr (Or.inr (dictGet_error_cases hlt))
    | ok lt =>
      rw [hlt, except_bind_ok] at h
      by_cases hf : pyOptEqStr lt "EPT Link" = true
      · rw [if_pos hf] at h
        cases hv : l.subscript "link" with
        | error e3 =>
          rw [hv, except_bind_error] at h
          injection h with h2
          subst h2
          rcases subscript_error_cases hv with h4 | h4
          · exact Or.inl h4
          · exact Or.inr (Or.inl h4)
        | ok v =>
          rw [hv, except_bind_ok] at h
          cases hr : eptLinkValues rest with
          | error e4 =>
            rw [hr, except_bind_error] at h
            injection h with h2
            subst h2
            exact ih hr
          | ok vs => rw [hr, except_bind_ok] at h; simp [pure, Except.pure] at h
      · rw [if_neg hf] at h
        exact ih h

theorem noaaLinkValues_error_cases {ls : List Json} {e : PyExc}
    (h : noaaLinkValues ls = Except.error e) :
    e = PyExc.keyError ∨ e = PyExc.typeError := by
  induction ls with
  | nil => simp [noaaLinkValues] at h
  | cons l rest ih =>
    simp only [noaaLinkValues] at h
    cases hlab : l.subscript "label" with
    | error e2 =>
      rw [hlab, except_bind_error] at h
      injection h with h2
      subst h2
      exact subscript_error_cases hlab
    | ok lab =>
      rw [hlab, except_bind_ok] at h
      by_cases hf : pyEqStr lab "NOAA Digital Coast" = true
      · rw [if_pos hf] at h
        cases hlt : l.subscript "linktype" with
        | error e3 =>
          rw [hlt, except_bind_error] at h
          injection h with h2
          subst h2
          exact subscript_error_cases hlt
        | ok lt =>
          rw [hlt, except_bind_ok, except_pure_bind] at h
          by_cases hk : pyEqStr lt "Data Access" = true
          · rw [if_pos hk] at h
            cases hv : l.subscript "link" with
            | error e4 =>
              rw [hv, except_bind_error] at h
              injection h with h2
              subst h2
              exact subscript_error_cases hv
            | ok v =>
              rw [hv, except_bind_ok] at h
              cases hr : noaaLinkValues rest with
              | error e5 =>
                rw [hr, except_bind_error] at h
                injection h with h2
                subst h2
                exact ih hr
              | ok vs => rw [hr, except_bind_ok] at h; simp [pure, Except.pure] at h
          · rw [if_neg hk] at h
            exact ih h
      · rw [if_neg hf, except_pure_bind] at h
        simp only [Bool.false_eq_true, if_false] at h
        exact ih h

theorem catchJsonTypeErr_error_eq (e2 : PyExc) :
    catchJsonTypeErr (Except.error e2) =
      if e2 = PyExc.jsonDecodeError ∨ e2 = PyExc.typeError then Except.ok none
      else Except.error e2 := by
  cases e2 <;> simp [catchJsonTypeErr]

theorem catchJsonTypeErr_error {body : Except PyExc (Option Json)} {e : PyExc}
    (h : catchJsonTypeErr body = Except.error e) :
    body = Except.error e ∧ e ≠ PyExc.jsonDecodeError ∧ e ≠ PyExc.typeError := by
  cases body with
  | ok r => simp [catchJsonTypeErr] at h
  | error e2 =>
    rw [catchJsonTypeErr_error_eq] at h
    by_cases hc : e2 = PyExc.jsonDecodeError ∨ e2 = PyExc.typeError
    · rw [if_pos hc] at h
      exact absurd h (by simp)
    · rw [if_neg hc] at h
      injection h with h2
      subst h2
      push_neg at hc
      exact ⟨rfl, hc.1, hc.2⟩

theorem eptBody_error_cases {j : Json} {e : PyExc}
    (h : eptBody j = Except.error e) :
    e = PyExc.keyError ∨ e = PyExc.typeError ∨ e = PyExc.attributeError := by
  simp only [eptBody] at h
  cases hs : j.subscript "links" with
  | error e2 =>
    rw [hs, except_bind_error] at h
    injection h with h2
    subst h2
    rcases subscript_error_cases hs with h4 | h4
    · exact Or.inl h4
    · exact Or.inr (Or.inl h4)
  | ok linksVal =>
    rw [hs, except_bind_ok] at h
    cases hi : linksVal.iterate with
    | error e3 =>
      rw [hi, except_bind_error] at h
      injection h with h2
      subst h2
      exact Or.inr (Or.inl (iterate_error_cases hi))
    | ok elems =>
      rw [hi, except_bind_ok] at h
      cases hv : eptLinkValues elems with
      | error e4 =>
        rw [hv, except_bind_error] at h
        injection h with h2
        subst h2
        exact eptLinkValues_error_cases hv
      | ok values =>
        rw [hv, except_bind_ok] at h
        cases values <;> simp [pure, Except.pure] at h

theorem noaaBody_error_cases {j : Json} {e : PyExc}
    (h : noaaBody j = Except.error e) :
    e = PyExc.keyError ∨ e = PyExc.typeError := by
  simp only [noaaBody] at h
  cases hs : j.subscript "links" with
  | error e2 =>
    rw [hs, except_bind_error] at h
    injection h with h2
    subst h2
    exact subscript_error_cases hs
  | ok linksVal =>
    rw [hs, except_bind_ok] at h
    cases hi : linksVal.iterate with
    | error e3 =>
      rw [hi, except_bind_error] at h
      injection h with h2
      subst h2
      exact Or.inr (iterate_error_cases hi)
    | ok elems =>
      rw [hi, except_bind_ok] at h
      cases hv : noaaLinkValues elems with
      | error e4 =>
        rw [hv, except_bind_error] at h
        injection h with h2
        subst h2
        exact noaaLinkValues_error_cases hv
      | ok values =>
        rw [hv, except_bind_ok] at h
        cases values with
        | nil => simp [pure, Except.pure] at h
        | cons v vs =>
          cases v <;> simp_all [pure, Except.pure]
          case str s => cases hm : findIdMatch s.toList <;> simp_all

/-- Claim C7 (amended): the two Links parsers never raise for a cell that
is Python `None`, a non-string value, or a string that fails JSON parsing
(those yield null for both fields), and TypeErrors arising inside the
body are caught as well; but on well-formed JSON the uncaught exceptions
are exactly the KeyError (missing `'links'`, `'link'`, `'label'` or
`'linktype'` keys) and, for the USIAEI parser, the AttributeError from a
non-dict link element; such raising inputs exist. -/
theorem link_parsing_amended :
    (parse_ept_from_usiaei .pyNone = Except.ok none) ∧
    (parse_ept_from_usiaei .nonString = Except.ok none) ∧
    (parse_ept_from_usiaei .badJson = Except.ok none) ∧
    (parse_noaa_lidar_id .pyNone = Except.ok none) ∧
    (parse_noaa_lidar_id .nonString = Except.ok none) ∧
    (parse_noaa_lidar_id .badJson = Except.ok none) ∧
    (∀ (j : Json) (e : PyExc), parse_ept_from_usiaei (.goodJson j) = Except.error e →
        e = PyExc.keyError ∨ e = PyExc.attributeError) ∧
    (∀ (j : Json) (e : PyExc), parse_noaa_lidar_id (.goodJson j) = Except.error e →
        e = PyExc.keyError) ∧
    (parse_ept_from_usiaei (.goodJson (Json.obj [])) = Except.error PyExc.keyError) ∧
    (parse_noaa_lidar_id (.goodJson (Json.obj [("links", Json.arr [Json.obj []])])) =
        Except.error PyExc.keyError) := by
  refine ⟨rfl, rfl, rfl, rfl, rfl, rfl, ?_, ?_, rfl, rfl⟩
  · intro j e h
    have h2 : catchJsonTypeErr (eptBody j) = Except.error e := h
    obtain ⟨hb, hnj, hnt⟩ := catchJsonTypeErr_error h2
    rcases eptBody_error_cases hb with h4 | h4 | h4
    · exact Or.inl h4
    · exact absurd h4 hnt
    · exact Or.inr h4
  · intro j e h
    have h2 : catchJsonTypeErr (noaaBody j) = Except.error e := h
    obtain ⟨hb, hnj, hnt⟩ := catchJsonTypeErr_error h2
    rcases noaaBody_error_cases hb with h4 | h4
    · exact h4
    · exact absurd h4 hnt

/-- Witness for C7: the uncaught-KeyError classification applied at a
concrete malformed input (a parsed object with no `'links'` key). -/
theorem link_parsing_amended_witness :
    parse_ept_from_usiaei (.goodJson (Json.obj [])) = Except.error PyExc.keyError ∧
    (PyExc.keyError = PyExc.keyError ∨ PyExc.keyError = PyExc.attributeError) :=
  ⟨rfl, link_parsing_amended.2.2.2.2.2.2.1 (Json.obj []) PyExc.keyError rfl⟩

/-- Counterexample for C7 as stated: link objects with missing keys do
raise.  A well-formed `Links` JSON whose matching EPT link object lacks
the `'link'` key makes `_parse_ept_from_usiaei` raise an uncaught
KeyError, and a link object lacking the `'label'` key makes
`_parse_noaa_lidar_id` raise an uncaught KeyError, instead of yielding
null. -/
theorem link_parsing_counterexample :
    parse_ept_from_usiaei (.goodJson (Json.obj [("links",
        Json.arr [Json.obj [("linktype", Json.str "EPT Link")]])])) =
      Except.error PyExc.keyError ∧
    parse_noaa_lidar_id (.goodJson (Json.obj [("links", Json.arr [Json.obj []])])) =
      Except.error PyExc.keyError := ⟨rfl, rfl⟩

/-! ## CRS resolution (`ProcessLidarCollections._get_ept_epsg`) -/

/-- Oracle for the external calls of `_get_ept_epsg`.  `pdalInfo` is
`subprocess.check_output(['pdal','info','--summary', url])` (an
unsuccessful exit raises CalledProcessError); `jsonLoads` parses its
stdout (JSONDecodeError on malformed output); `wktToEpsg` is
`pyproj.CRS.from_string(wkt).to_epsg()` on the extracted WKT value:
`Except.error` models `from_string` raising (a `pyproj` CRSError for an
unresolvable WKT), `Except.ok none` models `to_epsg()` returning `None`,
and `Except.ok (some n)` a successful conversion. -/
structure CrsEnv where
  pdalInfo : String → Except PyExc String
  jsonLoads : String → Except PyExc Json
  wktToEpsg : Json → Except PyExc (Option Int)

/-- `ProcessLidarCollections._get_ept_epsg`.  The input is the `ept` cell:
`none` for a non-string value (`np.nan`), `some url` for a string.  The
`try` body runs the tool, parses its JSON, subscripts
`metadata['summary']['srs']['wkt']`, and when the WKT value is truthy
returns `int(CRS.from_string(wkt).to_epsg())` — `int(None)` raising
TypeError.  The `except` clause catches only CalledProcessError,
JSONDecodeError and KeyError; in those cases, or when the function falls
off the `try` without returning (falsy WKT, or a non-string input),
`4326` is returned.  Any other exception propagates. -/
def get_ept_epsg (env : CrsEnv) (url : Option String) : Except PyExc Int :=
  match url with
  | none => Except.ok 4326
  | some u =>
    let body : Except PyExc (Option Int) := do
      let output ← env.pdalInfo u
      let metadata ← env.jsonLoads output
      let summary ← metadata.subscript "summary"
      let srs ← summary.subscript "srs"
      let wkt ← srs.subscript "wkt"
      if wkt.truthy then
        match ← env.wktToEpsg wkt with
        | some epsg => pure (some epsg)
        | none => Except.error PyExc.typeError
      else
        pure none
    match body with
    | Except.ok (some epsg) => Except.ok epsg
    | Except.ok none => Except.ok 4326
    | Except.error PyExc.calledProcessError => Except.ok 4326
    | Except.error PyExc.jsonDecodeError => Except.ok 4326
    | Except.error PyExc.keyError => Except.ok 4326
    | Except.error e => Except.error e

/-- An external world in which the introspection tool succeeds and the
returned metadata carries a nonempty WKT string that `pyproj` cannot
resolve, so `CRS.from_string` raises a CRSError. -/
def badWktEnv : CrsEnv where
  pdalInfo := fun _ => Except.ok "pdal-summary-output"
  jsonLoads := fun _ =>
    Except.ok (Json.obj [("summary", Json.obj [("srs",
      Json.obj [("wkt", Json.str "NOT A RESOLVABLE WKT")])])])
  wktToEpsg := fun _ => Except.error PyExc.crsError

/-- An external world identical to `badWktEnv` except that the WKT
resolves but has no EPSG match, so `to_epsg()` returns `None` and
`int(None)` raises TypeError. -/
def noEpsgEnv : CrsEnv :=
  { badWktEnv with wktToEpsg := fun _ => Except.ok none }

/-- Claim C2: contrary to the claim, `_get_ept_epsg` is not total.  At a
string endpoint whose introspection chain succeeds up to the WKT but
whose WKT cannot be converted, the function raises instead of returning
4326: the uncaught `pyproj` CRSError (unresolvable WKT) and the uncaught
TypeError from `int(None)` (`to_epsg()` without an EPSG match) both
propagate, because the `except` clause lists only CalledProcessError,
JSONDecodeError and KeyError. -/
theorem get_ept_epsg_uncaught_crs_error :
    get_ept_epsg badWktEnv (some "https://example.com/ept/ept.json") =
      Except.error PyExc.crsError ∧
    get_ept_epsg noEpsgEnv (some "https://example.com/ept/ept.json") =
      Except.error PyExc.typeError ∧
    (Except.error PyExc.crsError ≠ (Except.ok 4326 : Except PyExc Int)) ∧
    get_ept_epsg badWktEnv none = Except.ok 4326 :=
  ⟨rfl, rfl, by simp, rfl⟩

/-! ## Esri geometry encoding (`SearchLidarInventory.convert_to_esri_geometry`) -/

/-- Shapely geometries as the pipeline manipulates them.  A polygon part
carries its exterior ring and its interior rings exactly as
`pg.exterior.coords` / `pg.interiors` expose them (closed coordinate
sequences).  The coordinate type is a parameter; the embedding
instantiates it with `Int`, since no claim depends on coordinate
arithmetic. -/
inductive Geom (α : Type)
  | point (p : α × α)
  | lineString (coords : List (α × α))
  | polygon (exterior : List (α × α)) (interiors : List (List (α × α)))
  | multiPolygon (parts : List (List (α × α) × List (List (α × α))))
  deriving DecidableEq

/-- The Esri geometry object `{"rings": [...]}` built by the encoder
(before `json.dumps` serializes it to a string). -/
structure EsriGeometry (α : Type) where
  rings : List (List (α × α))
  deriving DecidableEq

/-- Shapely normalizes polygon rings to be closed: `Polygon(vs)` repeats
the first vertex at the end when the input sequence is not already
closed, so `exterior.coords` of a square built from 4 corners has 5
entries. -/
def closeRing {α : Type} [DecidableEq α] (vs : List (α × α)) : List (α × α) :=
  match vs with
  | [] => []
  | v :: _ => if vs.getLast? = some v then vs else vs ++ [v]

/-- `SearchLidarInventory.convert_to_esri_geometry`: a MultiPolygon
contributes, per part, its exterior ring followed by its interior rings,
concatenated; a Polygon contributes its exterior ring followed by its
interior rings; any other geometry prints a message and returns `None`
(here `none`). -/
def convert_to_esri_geometry {α : Type} : Geom α → Option (EsriGeometry α)
  | Geom.multiPolygon parts =>
    some ⟨parts.flatMap (fun pg => pg.1 :: pg.2)⟩
  | Geom.polygon exterior interiors => some ⟨exterior :: interiors⟩
  | _ => none

/-- The closed square ring on corners (0,0),(10,0),(10,10),(0,10). -/
def squareRing : List (Int × Int) := closeRing [(0, 0), (10, 0), (10, 10), (0, 10)]

/-- A closed interior ring (hole) inside `squareRing`. -/
def holeRing : List (Int × Int) := closeRing [(2, 2), (4, 2), (4, 4), (2, 4)]

/-- Claim C8: the encoder emits the exterior ring followed by the interior
rings for a Polygon, the per-part concatenation of those for a
MultiPolygon, and no encoding for non-polygon input; a closed square with
no holes yields exactly one ring of 5 coordinate pairs (first = last) and
a polygon with one hole yields exactly 2 rings. -/
theorem convert_to_esri_geometry_rings :
    (∀ (exterior : List (Int × Int)) (interiors : List (List (Int × Int))),
        convert_to_esri_geometry (Geom.polygon exterior interiors) =
          some ⟨exterior :: interiors⟩) ∧
    (∀ parts : List (List (Int × Int) × List (List (Int × Int))),
        convert_to_esri_geometry (Geom.multiPolygon parts) =
          some ⟨parts.flatMap (fun pg => pg.1 :: pg.2)⟩) ∧
    (∀ p : Int × Int, convert_to_esri_geometry (Geom.point p) = none) ∧
    (∀ cs : List (Int × Int), convert_to_esri_geometry (Geom.lineString cs) = none) ∧
    (convert_to_esri_geometry (Geom.polygon squareRing []) = some ⟨[squareRing]⟩ ∧
      squareRing.length = 5 ∧ squareRing.head? = squareRing.getLast? ∧
      (convert_to_esri_geometry (Geom.polygon squareRing [])).map
        (fun e => e.rings.length) = some 1) ∧
    (convert_to_esri_geometry (Geom.polygon squareRing [holeRing])).map
      (fun e => e.rings.length) = some 2 := by
  refine ⟨fun _ _ => rfl, fun _ => rfl, fun _ => rfl, fun _ => rfl, ⟨rfl, ?_, ?_, rfl⟩, rfl⟩
  · rfl
  · rfl

/-! ## Geometry normalization (`SearchLidarInventory.generate_geometries`) -/

/-- The `value` entry of a location dictionary.  Its shape is only
meaningful relative to `data_type`; a mismatched shape makes the
corresponding shapely or geopandas constructor raise. -/
inductive LocValue
  | pt (x y : Int)
  | path (p : String)
  | box (minx miny maxx maxy : Int)
  deriving DecidableEq

/-- One user-supplied location dictionary.  `buffer = none` models a
dictionary with no `'buffer'` key at all. -/
structure Location where
  name : String
  data_type : String
  value : LocValue
  buffer : Option Int
  deriving DecidableEq

/-- One row of a geometry table (name plus geometry column). -/
structure GeoRow where
  name : String
  geometry : Geom Int
  deriving DecidableEq

/-- One row of the Mercator geometry table returned by
`generate_geometries`, including the derived `esri_geometry` column. -/
structure MercRow where
  name : String
  geometry : Geom Int
  esri_geometry : Option (EsriGeometry Int)
  deriving DecidableEq

/-- Oracle for the geopandas/shapely operations `generate_geometries`
delegates to: `bufferedPoint x y r` is the composite
`Point((x,y))` in EPSG:4326 → `to_crs(5070)` → `.buffer(r)` →
`to_crs(4326)`; `readFile` is `gpd.read_file` returning the geometry
column (it may raise); `toMercator`/`toWgs` are per-geometry
reprojections `to_crs(3857)` / `to_crs(4326)`. -/
structure GeoEnv where
  bufferedPoint : Int → Int → Int → Geom Int
  readFile : String → Except PyExc (List (Geom Int))
  toMercator : Geom Int → Geom Int
  toWgs : Geom Int → Geom Int

/-- The body of the `for location in self.locations:` loop: returns
`some rows` when a branch appended a GeoDataFrame, `none` when no branch
matched (the location is silently skipped — the `if/elif/elif` chain has
no `else`).  In the `'coords'` branch the attribute comprehension
`{key: location[key] for key in ['name', 'buffer']}` runs first and
raises KeyError when the dictionary has no `'buffer'` key; the
`try/except KeyError: buffer = 50` a few lines below therefore can never
fire (the comprehension already guaranteed the key) and the 50 m default
is dead code.  A value whose shape does not fit the branch makes the
shapely/geopandas constructor raise (modelled as TypeError). -/
def processLocation (env : GeoEnv) (loc : Location) : Except PyExc (Option (List GeoRow)) :=
  if loc.data_type = "coords" then
    match loc.buffer with
    | none => Except.error PyExc.keyError
    | some b =>
      match loc.value with
      | LocValue.pt x y => Except.ok (some [⟨loc.name, env.bufferedPoint x y b⟩])
      | _ => Except.error PyExc.typeError
  else if loc.data_type = "file" then
    match loc.value with
    | LocValue.path p =>
      (env.readFile p).map (fun geoms => some (geoms.map (fun g => ⟨loc.name, g⟩)))
    | _ => Except.error PyExc.typeError
  else if loc.data_type = "bbox" then
    match loc.value with
    | LocValue.box minx miny maxx maxy =>
      Except.ok (some [⟨loc.name,
        Geom.polygon (closeRing [(minx, miny), (maxx, miny), (maxx, maxy), (minx, maxy)]) []⟩])
    | _ => Except.error PyExc.typeError
  else
    Except.ok none

/-- The loop accumulating the `gdfs` list, in order; the first exception
aborts the whole call. -/
def buildGdfs (env : GeoEnv) : List Location → Except PyExc (List (List GeoRow))
  | [] => Except.ok []
  | loc :: rest => do
    let r ← processLocation env loc
    let rs ← buildGdfs env rest
    match r with
    | some rows => pure (rows :: rs)
    | none => pure rs

/-- `explode(index_parts=False)` on one geometry: a MultiPolygon becomes
one single-part Polygon row per part; single-part geometries pass
through. -/
def explodeGeom : Geom Int → List (Geom Int)
  | Geom.multiPolygon parts => parts.map (fun pg => Geom.polygon pg.1 pg.2)
  | g => [g]

/-- `SearchLidarInventory.generate_geometries`: run the per-location
loop, then `gpd.GeoDataFrame(pd.concat(gdfs, ignore_index=True),
crs=gdfs[0].crs)` — `pd.concat` of the empty list raises
`ValueError: No objects to concatenate`, and it is evaluated before the
keyword argument `gdfs[0].crs` (whose IndexError is therefore never
reached).  The concatenated table is reprojected to Mercator, exploded
to single parts, reprojected back to geographic for the first returned
table, and given the `esri_geometry` column for the second. -/
def generate_geometries (env : GeoEnv) (locations : List Location) :
    Except PyExc (List GeoRow × List MercRow) := do
  let gdfs ← buildGdfs env locations
  match gdfs with
  | [] => Except.error PyExc.valueError
  | _ :: _ =>
    let gdf_wgs : List GeoRow := gdfs.flatten
    let gdf_mercator := gdf_wgs.map (fun r => GeoRow.mk r.name (env.toMercator r.geometry))
    let exploded := gdf_mercator.flatMap
      (fun r => (explodeGeom r.geometry).map (fun g => GeoRow.mk r.name g))
    let gdf_wgs2 := exploded.map (fun r => GeoRow.mk r.name (env.toWgs r.geometry))
    let merc := exploded.map
      (fun r => MercRow.mk r.name r.geometry (convert_to_esri_geometry r.geometry))
    pure (gdf_wgs2, merc)

/-- A concrete instantiation of the geometric oracle, used to evaluate
the pipeline on closed inputs: buffering a point yields the closed
axis-aligned square of half-width `r` around it, file reads yield one
unit square, and reprojections are the identity. -/
def trivialEnv : GeoEnv where
  bufferedPoint := fun x y r =>
    Geom.polygon (closeRing [(x - r, y - r), (x + r, y - r), (x + r, y + r), (x - r, y + r)]) []
  readFile := fun _ =>
    Except.ok [Geom.polygon (closeRing [(0, 0), (1, 0), (1, 1), (0, 1)]) []]
  toMercator := fun g => g
  toWgs := fun g => g

/-- A location of recognized type `'coords'` with an explicit buffer. -/
def okCoords : Location := ⟨"ok", "coords", LocValue.pt 1 2, some 50⟩

/-- A location whose `data_type` matches no branch of the loop. -/
def weirdLoc : Location := ⟨"weird", "mystery", LocValue.pt 0 0, some 1⟩

/-- The buffered polygon `trivialEnv` produces for `okCoords`. -/
def okBufferedPoly : Geom Int :=
  Geom.polygon [(-49, -48), (51, -48), (51, 52), (-49, 52), (-49, -48)] []

theorem processLocation_unrecognized (env : GeoEnv) (loc : Location)
    (h1 : loc.data_type ≠ "coords") (h2 : loc.data_type ≠ "file")
    (h3 : loc.data_type ≠ "bbox") :
    processLocation env loc = Except.ok none := by
  simp [processLocation, h1, h2, h3]

theorem buildGdfs_all_unrecognized (env : GeoEnv) (locs : List Location)
    (h : ∀ loc ∈ locs, loc.data_type ≠ "coords" ∧ loc.data_type ≠ "file" ∧
        loc.data_type ≠ "bbox") :
    buildGdfs env locs = Except.ok [] := by
  induction locs with
  | nil => rfl
  | cons p ps ih =>
    obtain ⟨h1, h2, h3⟩ := h p (List.mem_cons_self p ps)
    simp only [buildGdfs]
    rw [processLocation_unrecognized env p h1 h2 h3, except_bind_ok,
      ih (fun l hl => h l (List.mem_cons_of_mem p hl)), except_bind_ok]
    rfl

theorem generate_geometries_all_unrecognized (env : GeoEnv) (locs : List Location)
    (h : ∀ loc ∈ locs, loc.data_type ≠ "coords" ∧ loc.data_type ≠ "file" ∧
        loc.data_type ≠ "bbox") :
    generate_geometries env locs = Except.error PyExc.valueError := by
  unfold generate_geometries
  rw [buildGdfs_all_unrecognized env locs h, except_bind_ok]

/-- Claim C5: the code contradicts the claimed 50 m default.  A `coords`
Region with no `buffer` key makes `generate_geometries` raise KeyError at
the attribute comprehension `{key: location[key] for key in
['name', 'buffer']}` — the `except KeyError: buffer = 50` handler sits
below that line and only guards `attributes['buffer']`, which can no
longer fail — while the same Region with an explicit buffer succeeds. -/
theorem generate_geometries_missing_buffer_raises :
    generate_geometries trivialEnv
        [⟨"site", "coords", LocValue.pt (-77) 38, none⟩] =
      Except.error PyExc.keyError ∧
    (∃ out, generate_geometries trivialEnv
        [⟨"site", "coords", LocValue.pt (-77) 38, some 50⟩] = Except.ok out) :=
  ⟨rfl, ⟨_, rfl⟩⟩

/-- Counterexample for C6 as stated: a Region with unrecognized
`data_type` does not make geometry normalization fail; the run succeeds
and its output tables silently omit the Region. -/
theorem generate_geometries_skips_unrecognized_counterexample :
    generate_geometries trivialEnv [okCoords, weirdLoc] =
      Except.ok ([⟨"ok", okBufferedPoly⟩],
        [⟨"ok", okBufferedPoly,
          some ⟨[[(-49, -48), (51, -48), (51, 52), (-49, 52), (-49, -48)]]⟩⟩]) := rfl

/-- Claim C6 (amended): a Region whose `data_type` is not one of
`coords`, `file`, `bbox` is silently skipped by geometry normalization —
no error is raised for it and the result is exactly that of the input
with the Region removed. -/
theorem generate_geometries_skips_unrecognized
    (env : GeoEnv) (pre post : List Location) (loc : Location)
    (h1 : loc.data_type ≠ "coords") (h2 : loc.data_type ≠ "file")
    (h3 : loc.data_type ≠ "bbox") :
    generate_geometries env (pre ++ loc :: post) = generate_geometries env (pre ++ post) := by
  have hb : ∀ ls : List Location,
      buildGdfs env (ls ++ loc :: post) = buildGdfs env (ls ++ post) := by
    intro ls
    induction ls with
    | nil =>
      simp only [List.nil_append, buildGdfs]
      rw [processLocation_unrecognized env loc h1 h2 h3, except_bind_ok]
      cases hr : buildGdfs env post with
      | error e => rw [except_bind_error]
      | ok rs => rw [except_bind_ok]; rfl
    | cons p ps ih =>
      simp only [List.cons_append, buildGdfs, List.append_eq, ih]
  unfold generate_geometries
  rw [hb pre]

/-- Witness for C6 (amended) at a concrete unrecognized Region. -/
theorem generate_geometries_skips_unrecognized_witness :
    generate_geometries trivialEnv ([] ++ weirdLoc :: []) =
      generate_geometries trivialEnv ([] ++ []) :=
  generate_geometries_skips_unrecognized trivialEnv [] [] weirdLoc
    (by decide) (by decide) (by decide)

/-- Counterexample for C10 as stated: on the empty Region list the error
raised is the ValueError from `pd.concat` of the empty list (evaluated
before the `gdfs[0]` indexing), not an IndexError from indexing. -/
theorem generate_geometries_empty_counterexample :
    generate_geometries trivialEnv [] = Except.error PyExc.valueError ∧
    PyExc.valueError ≠ PyExc.indexError := ⟨rfl, by decide⟩

/-- Claim C10 (amended): `generate_geometries` is partial at empty
effective input — for the empty Region list, or a list in which no
Region has a recognized `data_type`, it raises the ValueError from
concatenating the empty per-region result list rather than returning a
pair of empty tables; success presupposes at least one Region with a
recognized `data_type`. -/
theorem generate_geometries_empty_raises :
    (∀ env : GeoEnv, generate_geometries env [] = Except.error PyExc.valueError) ∧
    (∀ (env : GeoEnv) (locs : List Location),
        (∀ loc ∈ locs, loc.data_type ≠ "coords" ∧ loc.data_type ≠ "file" ∧
            loc.data_type ≠ "bbox") →
        generate_geometries env locs = Except.error PyExc.valueError) ∧
    (∀ (env : GeoEnv) (locs : List Location) (out : List GeoRow × List MercRow),
        generate_geometries env locs = Except.ok out →
        ∃ loc ∈ locs, loc.data_type = "coords" ∨ loc.data_type = "file" ∨
          loc.data_type = "bbox") := by
  refine ⟨fun env => rfl, fun env locs h => generate_geometries_all_unrecognized env locs h, ?_⟩
  intro env locs out h
  by_contra hno
  push_neg at hno
  rw [generate_geometries_all_unrecognized env locs hno] at h
  exact Except.noConfusion h

/-- Witness for C10 (amended) at a concrete list with no recognized
Region. -/
theorem generate_geometries_empty_raises_witness :
    generate_geometries trivialEnv [weirdLoc] = Except.error PyExc.valueError :=
  generate_geometries_empty_raises.2.1 trivialEnv [weirdLoc] (by decide)

/-! ## Spatial query client (`SearchLidarInventory.make_post_request`) -/

/-- One HTTP response of the POST loop: its status code and the rows that
`GeoDataFrame.from_features(json['features'])` would yield on a 200
response (opaque row payloads).  The loop issues one request per
(url, location) pair in order; `responses` lists them in that order. -/
structure Response where
  status : Nat
  features : List String
  deriving DecidableEq

/-- The statuses that abort the loop:
`400` Bad request, `401` Unauthorized, `500` Internal error. -/
def httpError (s : Nat) : Prop := s = 400 ∨ s = 401 ∨ s = 500

instance (s : Nat) : Decidable (httpError s) := by
  unfold httpError
  infer_instance

/-- The request loop of `make_post_request`: a 200 response has its
non-empty feature table appended to `gdfs` (an empty table is skipped
with no error), statuses 400/401/500 raise immediately with the
corresponding message, and any other status falls through the
`if/elif` chain silently — neither appended nor raised. -/
def processResponses : List Response → Except PyExc (List (List String))
  | [] => Except.ok []
  | r :: rest =>
    if r.status = 200 then do
      let gdfs ← processResponses rest
      pure (if r.features.isEmpty then gdfs else r.features :: gdfs)
    else if r.status = 400 then
      Except.error (PyExc.runtimeError "Request failed. 400 - Bad request")
    else if r.status = 401 then
      Except.error (PyExc.runtimeError "Request failed. 401 - Unauthorized")
    else if r.status = 500 then
      Except.error (PyExc.runtimeError "Request failed. 500 - Internal error")
    else
      processResponses rest

/-- `make_post_request` after the loop:
`gpd.GeoDataFrame(pd.concat(gdfs, ignore_index=True), crs=self.wgs)` —
`pd.concat` of zero accumulated tables raises
`ValueError: No objects to concatenate`. -/
def make_post_request (responses : List Response) : Except PyExc (List String) := do
  let gdfs ← processResponses responses
  match gdfs with
  | [] => Except.error PyExc.valueError
  | _ :: _ => pure gdfs.flatten

/-- A response that contributes no rows without aborting: a 200 response
with an empty feature table, or any non-200 status outside
{400, 401, 500}. -/
def contributesNone (r : Response) : Prop :=
  (r.status = 200 ∧ r.features = []) ∨ (r.status ≠ 200 ∧ ¬ httpError r.status)

instance (r : Response) : Decidable (contributesNone r) := by
  unfold contributesNone
  infer_instance

/-- The exception text raised for each aborting status. -/
def httpErrorExc (s : Nat) : PyExc :=
  if s = 400 then PyExc.runtimeError "Request failed. 400 - Bad request"
  else if s = 401 then PyExc.runtimeError "Request failed. 401 - Unauthorized"
  else PyExc.runtimeError "Request failed. 500 - Internal error"

theorem processResponses_http_error (r : Response) (post : List Response)
    (hr : httpError r.status) :
    processResponses (r :: post) = Except.error (httpErrorExc r.status) := by
  rcases hr with h4 | h4 | h4 <;> simp [processResponses, httpErrorExc, h4]

theorem processResponses_abort (pre : List Response) (r : Response)
    (hr : httpError r.status) :
    ∃ e, ∀ post, processResponses (pre ++ r :: post) = Except.error e := by
  induction pre with
  | nil => exact ⟨httpErrorExc r.status, fun post => processResponses_http_error r post hr⟩
  | cons p ps ih =>
    obtain ⟨e, he⟩ := ih
    by_cases h200 : p.status = 200
    · refine ⟨e, fun post => ?_⟩
      simp only [List.cons_append, processResponses, List.append_eq]
      rw [if_pos h200, he post, except_bind_error]
    · by_cases hp : httpError p.status
      · exact ⟨httpErrorExc p.status,
          fun post => processResponses_http_error p (ps ++ r :: post) hp⟩
      · have h4 : p.status ≠ 400 := fun hc => hp (Or.inl hc)
        have h5 : p.status ≠ 401 := fun hc => hp (Or.inr (Or.inl hc))
        have h6 : p.status ≠ 500 := fun hc => hp (Or.inr (Or.inr hc))
        refine ⟨e, fun post => ?_⟩
        simp only [List.cons_append, processResponses, List.append_eq]
        rw [if_neg h200, if_neg h4, if_neg h5, if_neg h6, he post]

/-- Claim C4: a 400/401/500 response raises immediately — the run ends in
an error and the outcome is independent of every response that would
follow the failing call, so no rows from subsequent calls are ever
aggregated — while a response with any other non-200 status is silently
skipped, contributing zero rows and raising nothing. -/
theorem make_post_request_failure_policy :
    (∀ (pre post post2 : List Response) (r : Response), httpError r.status →
        (∃ e, processResponses (pre ++ r :: post) = Except.error e) ∧
        processResponses (pre ++ r :: post) = processResponses (pre ++ r :: post2)) ∧
    (∀ (r : Response) (rest : List Response), r.status ≠ 200 → ¬ httpError r.status →
        processResponses (r :: rest) = processResponses rest) := by
  constructor
  · intro pre post post2 r hr
    obtain ⟨e, he⟩ := processResponses_abort pre r hr
    exact ⟨⟨e, he post⟩, (he post).trans (he post2).symm⟩
  · intro r rest h200 hp
    have h4 : r.status ≠ 400 := fun hc => hp (Or.inl hc)
    have h5 : r.status ≠ 401 := fun hc => hp (Or.inr (Or.inl hc))
    have h6 : r.status ≠ 500 := fun hc => hp (Or.inr (Or.inr hc))
    simp only [processResponses]
    rw [if_neg h200, if_neg h4, if_neg h5, if_neg h6]

/-- Witness for C4: a 400 response after one aggregated 200 response
aborts with an error, independently of a 200 response that follows. -/
theorem make_post_request_failure_policy_witness :
    (∃ e, processResponses [⟨200, ["a"]⟩, ⟨400, []⟩, ⟨200, ["b"]⟩] = Except.error e) ∧
    processResponses [⟨200, ["a"]⟩, ⟨400, []⟩, ⟨200, ["b"]⟩] =
      processResponses [⟨200, ["a"]⟩, ⟨400, []⟩] :=
  make_post_request_failure_policy.1 [⟨200, ["a"]⟩] [⟨200, ["b"]⟩] [] ⟨400, []⟩ (by decide)

theorem processResponses_contributesNone (rs : List Response) :
    (∀ r ∈ rs, contributesNone r) → processResponses rs = Except.ok [] := by
  induction rs with
  | nil => intro h; rfl
  | cons p ps ih =>
    intro h
    have hps := ih (fun l hl => h l (List.mem_cons_of_mem p hl))
    rcases h p (List.mem_cons_self p ps) with ⟨h200, hemp⟩ | ⟨h200, hp⟩
    · simp only [processResponses]
      rw [if_pos h200, hps, except_bind_ok, hemp]
      rfl
    · have h4 : p.status ≠ 400 := fun hc => hp (Or.inl hc)
      have h5 : p.status ≠ 401 := fun hc => hp (Or.inr (Or.inl hc))
      have h6 : p.status ≠ 500 := fun hc => hp (Or.inr (Or.inr hc))
      simp only [processResponses]
      rw [if_neg h200, if_neg h4, if_neg h5, if_neg h6, hps]

/-- Claim C9: when every (endpoint, region) response contributes zero
rows (a 200 with an empty feature table or a silently skipped non-200
status), the query stage fails hard at `pd.concat` of the empty `gdfs`
list with a ValueError, which is a different exception from the
`Exception(...)` raised for the HTTP 400/401/500 statuses. -/
theorem make_post_request_empty_result (rs : List Response)
    (h : ∀ r ∈ rs, contributesNone r) :
    make_post_request rs = Except.error PyExc.valueError ∧
    ∀ msg, PyExc.valueError ≠ PyExc.runtimeError msg := by
  constructor
  · unfold make_post_request
    rw [processResponses_contributesNone rs h, except_bind_ok]
  · intro msg hc
    exact PyExc.noConfusion hc

/-- Witness for C9: an empty 200 response plus a skipped 404 response
yield the ValueError. -/
theorem make_post_request_empty_result_witness :
    make_post_request [⟨200, []⟩, ⟨404, ["row"]⟩] = Except.error PyExc.valueError ∧
    ∀ msg, PyExc.valueError ≠ PyExc.runtimeError msg :=
  make_post_request_empty_result [⟨200, []⟩, ⟨404, ["row"]⟩] (by decide)

/-! ## Extraction request construction (`fetch_lidar`) -/

/-- The `readers.ept` stage dictionary that `fetch_lidar` builds before
handing it to `pdal.Pipeline`.  `filename` is the first entry of the
`ept` column verbatim (so a null endpoint becomes a null filename);
`bounds` stores the extent in the source's `([minx, maxx], [miny, maxy])`
ordering (the source formats it into a string); `polygon` stores the WKT
of the single region geometry. -/
structure ReadRequest where
  type : String
  filename : Option String
  tag : String
  bounds : Option (Int × Int × Int × Int)
  polygon : Option String
  deriving DecidableEq

/-- `fetch_lidar` up to the construction of the read stage.  The inputs
are the row's `ept` column as a list of cells (`none` = NaN), the
`geometry_method`, and the nested region GeoDataFrame reduced to the two
derived values the function reads from it (`total_bounds` and the WKT of
its first geometry).  The guard `if not ept_url:` is Python list
truthiness: it fires only when the column is EMPTY (zero rows); a single
row whose cell is NaN yields the truthy list `[nan]`, passes the guard,
and the request is built with the null endpoint as filename.  Execution
of the pipeline itself is external and out of scope. -/
def fetch_lidar (ept_column : List (Option String)) (geometry_method : String)
    (total_bounds : Int × Int × Int × Int) (wkt : String) :
    Except PyExc ReadRequest :=
  match ept_column with
  | [] => Except.error (PyExc.runtimeError "The collection does not have an EPT url. Exiting...")
  | ept_url :: _ =>
    let base : ReadRequest := ⟨"readers.ept", ept_url, "readdata", none, none⟩
    if geometry_method = "bounds" then
      match total_bounds with
      | (minx, miny, maxx, maxy) => Except.ok { base with bounds := some (minx, maxx, miny, maxy) }
    else if geometry_method = "polygon" then
      Except.ok { base with polygon := some wkt }
    else
      Except.ok base

/-- Counterexample for C3 as stated: a row whose `ept` is a null value
does NOT fail — the column `[NaN]` is a non-empty, truthy list, so the
guard does not fire and a read request is constructed whose filename is
the null endpoint. -/
theorem fetch_lidar_null_ept_counterexample :
    fetch_lidar [none] "bounds" (0, 0, 5, 5) "POLYGON ((0 0, 5 0, 5 5, 0 5, 0 0))" =
      Except.ok ⟨"readers.ept", none, "readdata", some (0, 5, 0, 5), none⟩ := rfl

/-- Claim C3 (amended): `fetch_lidar` raises its missing-endpoint error
exactly when the `ept` column is empty (the GeoDataFrame has zero rows);
for any non-empty column — including one whose first cell is null — no
error is raised and the read request is built with that first cell as
its filename. -/
theorem fetch_lidar_empty_column_only :
    (∀ (method : String) (b : Int × Int × Int × Int) (w : String),
        fetch_lidar [] method b w =
          Except.error (PyExc.runtimeError "The collection does not have an EPT url. Exiting...")) ∧
    (∀ (u : Option String) (rest : List (Option String)) (method : String)
        (b : Int × Int × Int × Int) (w : String),
        ∃ req, fetch_lidar (u :: rest) method b w = Except.ok req ∧ req.filename = u) := by
  constructor
  · intro method b w
    rfl
  · intro u rest method b w
    obtain ⟨minx, miny, maxx, maxy⟩ := b
    by_cases h1 : method = "bounds"
    · exact ⟨⟨"readers.ept", u, "readdata", some (minx, maxx, miny, maxy), none⟩,
        by simp [fetch_lidar, h1], rfl⟩
    · by_cases h2 : method = "polygon"
      · exact ⟨⟨"readers.ept", u, "readdata", none, some w⟩,
          by simp [fetch_lidar, h1, h2], rfl⟩
      · exact ⟨⟨"readers.ept", u, "readdata", none, none⟩,
          by simp [fetch_lidar, h1, h2], rfl⟩
